import Mathlib

/-!
Verification of the OpenShift Origin bootstrap orchestrator
(`pkg/cmd/server/start.go`): role resolution, address defaulting,
the etcd readiness gate, trust bootstrap, and the startup sequencer,
shallowly embedded in Lean.
-/

set_option autoImplicit false

namespace Origin

/-- Errors the bootstrap can abort with (the distinct `errors.New` /
`fmt.Errorf` exits of `start.go`). -/
inductive StartError where
  | invalidArguments
  | addressDiscoveryFailed
  | storeUnreachable
  deriving DecidableEq, Repr, Inhabited

/-- Modelled from the spec: the repository's address flag type
(`pkg/cmd/flagtypes.Addr`, not under `src/`).  Per spec §3 every address
field carries scheme, host, port, the flag's default scheme and default
port, and a "was this explicitly provided by the operator" marker that
downstream defaulting branches on. -/
structure Addr where
  scheme : String
  host : String
  port : Nat
  defaultScheme : String
  defaultPort : Nat
  provided : Bool
  deriving DecidableEq, Repr, Inhabited

/-- Modelled from the spec: `net.JoinHostPort` as used by `start.go`
(host:port, bracketing a host that itself contains a colon). -/
def joinHostPort (host : String) (port : Nat) : String :=
  if host.data.contains ':' then
    "[" ++ host ++ "]:" ++ toString port
  else
    host ++ ":" ++ toString port

/-- Modelled from the spec: setting an `Addr` from a bare `host:port`
string (no scheme given), as `cfg.EtcdAddr.Set(net.JoinHostPort(...))`
does: the flag's default scheme fills in, and the field becomes
"explicitly provided". -/
def Addr.setHostPort (a : Addr) (h : String) (p : Nat) : Addr :=
  { a with scheme := a.defaultScheme, host := h, port := p, provided := true }

/-- Modelled from the spec: setting an `Addr` from a full
`scheme://host:port` URL string, as `cfg.MasterAddr.Set(masterAddr)`
does: all three parts are taken from the input and the field becomes
"explicitly provided". -/
def Addr.setURL (a : Addr) (sch h : String) (p : Nat) : Addr :=
  { a with scheme := sch, host := h, port := p, provided := true }

/-- The `scheme://host:port` rendering of an address
(`cfg.MasterAddr.URL.String()` in the source). -/
def Addr.urlString (a : Addr) : String :=
  a.scheme ++ "://" ++ joinHostPort a.host a.port

/-- The flag-value record of `start.go`'s `config` struct (the fields the
bootstrap logic reads). -/
structure Config where
  masterAddr : Addr
  bindAddr : Addr
  etcdAddr : Addr
  kubernetesAddr : Addr
  hostname : String
  volumeDir : String
  etcdDir : String
  certDir : String
  nodeList : List String
  corsAllowedOrigins : List String
  requireAuthentication : Bool
  deriving DecidableEq, Repr, Inhabited

/-- The defaults installed by `NewCommandStartServer`:
master `localhost:8443` (https/8443), bind `0.0.0.0:8443` (https/8443),
etcd `0.0.0.0:4001` (http/4001), kubernetes unset (https/8443),
node list `["127.0.0.1"]`. -/
def defaultConfig (hostname : String) : Config :=
  { masterAddr := { scheme := "https", host := "localhost", port := 8443
                    defaultScheme := "https", defaultPort := 8443, provided := false }
    bindAddr := { scheme := "https", host := "0.0.0.0", port := 8443
                  defaultScheme := "https", defaultPort := 8443, provided := false }
    etcdAddr := { scheme := "http", host := "0.0.0.0", port := 4001
                  defaultScheme := "http", defaultPort := 4001, provided := false }
    kubernetesAddr := { scheme := "https", host := "", port := 8443
                        defaultScheme := "https", defaultPort := 8443, provided := false }
    hostname := hostname
    volumeDir := "openshift.local.volumes"
    etcdDir := "openshift.local.etcd"
    certDir := "openshift.local.certificates"
    nodeList := ["127.0.0.1"]
    corsAllowedOrigins := []
    requireAuthentication := false }

/-- `defaultMasterAddress` from `start.go`: fills an unset master address
from the bind address's port/scheme (when the bind address was provided,
else the master flag's current defaults) and the host's discovered local
IPv4 address (`util.DefaultLocalIP4`, passed here as `localIP`, `none`
when discovery fails), then fills an unset etcd address from whichever
master host is now authoritative together with etcd's default port. -/
def defaultMasterAddress (localIP : Option String) (cfg : Config) :
    Except StartError Config :=
  if !cfg.masterAddr.provided then
    let port := if cfg.bindAddr.provided then cfg.bindAddr.port else cfg.masterAddr.port
    let scheme := if cfg.bindAddr.provided then cfg.bindAddr.scheme else cfg.masterAddr.scheme
    match localIP with
    | none => .error .addressDiscoveryFailed
    | some addr =>
      let cfg := { cfg with masterAddr := cfg.masterAddr.setURL scheme addr port }
      if !cfg.etcdAddr.provided then
        .ok { cfg with etcdAddr := cfg.etcdAddr.setHostPort addr cfg.etcdAddr.defaultPort }
      else
        .ok cfg
  else if !cfg.etcdAddr.provided then
    .ok { cfg with etcdAddr := cfg.etcdAddr.setHostPort cfg.masterAddr.host cfg.etcdAddr.defaultPort }
  else
    .ok cfg

/-- The role-selection switch at the top of `start`: more than one
positional argument is an error; `master` and `node` select their roles
(`master` additionally embeds etcd when `--etcd` was not provided);
any other single token is an error; no argument selects all-in-one.
Returns `(startEtcd, startMaster, startNode)`. -/
def resolveRoles (cfg : Config) (args : List String) :
    Except StartError (Bool × Bool × Bool) :=
  if args.length > 1 then
    .error .invalidArguments
  else
    match args with
    | [a] =>
      if a = "master" then .ok (!cfg.etcdAddr.provided, true, false)
      else if a = "node" then .ok (false, false, true)
      else .error .invalidArguments
    | _ => .ok (!cfg.etcdAddr.provided, true, true)

/-- What a single etcd probe (`etcdClient.Get("/", false, false)`)
can answer: no error, a "key not found" error
(`tools.IsEtcdNotFound`), or any other transport-level error. -/
inductive ProbeResult where
  | ok
  | notFound
  | transportError
  deriving DecidableEq, Repr, Inhabited

/-- The fixed sleep between failed probes in `getEtcdClient`
(`time.Sleep(50 * time.Millisecond)`), in milliseconds. -/
def etcdSleepIntervalMs : Nat := 50

/-- The retry loop body of `getEtcdClient`, fuel-translated: at iteration
`i`, probe; on `ok`/`notFound` succeed with the attempt index; otherwise
give up when `i > 100`, else sleep and retry with `i+1`.  `fuel = 102`
from `i = 0` covers every reachable iteration. -/
def etcdGateAux (probe : Nat → ProbeResult) : Nat → Nat → Except StartError Nat
  | 0, _ => .error .storeUnreachable
  | fuel + 1, i =>
    match probe i with
    | .ok => .ok i
    | .notFound => .ok i
    | .transportError =>
      if i > 100 then .error .storeUnreachable
      else etcdGateAux probe fuel (i + 1)

/-- `getEtcdClient` from `start.go`: poll the store's root key until a
probe answers with no error or "key not found", failing with
`StoreUnreachable` once the iteration count passes 100. -/
def getEtcdClient (probe : Nat → ProbeResult) : Except StartError Nat :=
  etcdGateAux probe 102 0

/-- The launch / side-effecting steps of `start`, in the order the source
performs them. -/
inductive Event where
  | runEtcd
  | etcdGate
  | runAPI
  | runScheduler
  | runReplicationController
  | runEndpointController
  | runMinionController
  | startRecording
  | runAssetServer
  | runBuildController
  | runBuildImageChangeTriggerController
  | runDeploymentController
  | runDeploymentConfigController
  | runDeploymentConfigChangeController
  | runDeploymentImageChangeTriggerController
  | ensureVolumeDir
  | ensureDocker
  | runProxy
  | runKubelet
  deriving DecidableEq, Repr, Inhabited

/-- A `kclient.Config` as `start.go` builds them: the API host it points
at, and which issued client identity (if any) authenticates it
(`ca.MakeClientConfig(user, ...)` attaches certificates for `user`;
the plain literals carry none). -/
structure ClientConfig where
  host : String
  user : Option String
  deriving DecidableEq, Repr, Inhabited

/-- A cryptographic identity minted during trust bootstrap: the master's
server certificate (with its subject-alternative hosts) or a named
client certificate. -/
inductive Identity where
  | server (name : String) (hosts : List String)
  | client (name : String)
  deriving DecidableEq, Repr, Inhabited

/-- The trust-bootstrap block of `start` (lines 261-316): under https it
mints the `"master"` server certificate (valid for the master host,
`localhost`, `127.0.0.1`, and the container bridge `172.17.42.1`) and the
`"openshift-client"`, `"openshift-deployer"` and `"admin"` client
identities, plus `"kube-client"` exactly when Kubernetes is embedded;
without https it mints nothing. -/
def bootstrapIdentities (tls startKube : Bool) (masterHost : String) : List Identity :=
  if tls then
    [.server "master" [masterHost, "localhost", "127.0.0.1", "172.17.42.1"],
     .client "openshift-client",
     .client "openshift-deployer",
     .client "admin"] ++
    (if startKube then [.client "kube-client"] else [])
  else
    []

/-- The master-branch launch sequence of `start` (lines 204-363):
optionally the embedded etcd, the readiness gate, the API listener
(alongside the four Kubernetes control loops when embedded), event
recording, the asset server, and the six origin controllers. -/
def masterEvents (startEtcd startKube : Bool) : List Event :=
  (if startEtcd then [.runEtcd] else []) ++
  [.etcdGate, .runAPI] ++
  (if startKube then
    [.runScheduler, .runReplicationController, .runEndpointController, .runMinionController]
   else []) ++
  [.startRecording,
   .runAssetServer,
   .runBuildController,
   .runBuildImageChangeTriggerController,
   .runDeploymentController,
   .runDeploymentConfigController,
   .runDeploymentConfigChangeController,
   .runDeploymentImageChangeTriggerController]

/-- The node-branch launch sequence of `start` (lines 366-396): the
readiness gate, the working-directory and Docker-handle checks, the
proxy, then the kubelet. -/
def nodeEvents : List Event :=
  [.etcdGate, .ensureVolumeDir, .ensureDocker, .runProxy, .runKubelet]

/-- The fields of `origin.MasterConfig` (and its companion client
configs) that the bootstrap fills in. -/
structure MasterPlan where
  tls : Bool
  bindAddr : String
  masterAddr : String
  assetAddr : String
  kubernetesAddr : String
  corsAllowedOrigins : List String
  osClientConfig : ClientConfig
  deployerOSClientConfig : ClientConfig
  kubeClientConfig : ClientConfig
  identities : List Identity
  deriving DecidableEq, Repr, Inhabited

/-- The fields of `kubernetes.NodeConfig` that the bootstrap fills in. -/
structure NodePlan where
  bindHost : String
  nodeHost : String
  masterHost : String
  volumeDir : String
  deriving DecidableEq, Repr, Inhabited

/-- Everything a successful run of `start` has decided and done before it
parks: the final configuration, the role flags, the built plans, and the
launch events in order. -/
structure Outcome where
  cfg : Config
  startEtcd : Bool
  startMaster : Bool
  startNode : Bool
  startKube : Bool
  master : Option MasterPlan
  node : Option NodePlan
  events : List Event
  deriving DecidableEq, Repr, Inhabited

/-- The node-list defaulting at the top of the master branch (lines
196-199): when the node list is exactly the one-element default
`["127.0.0.1"]`, replace that entry with the configured hostname. -/
def defaultNodeListConfig (cfg : Config) : Config :=
  match cfg.nodeList with
  | [n] => if n = "127.0.0.1" then { cfg with nodeList := [cfg.hostname] } else cfg
  | _ => cfg

/-- The pure plan-building part of the master branch, after the
readiness gate (lines 228-340): the asset address, the CORS append, the
trust bootstrap and the client configurations. -/
def buildMasterPlan (startKube : Bool) (cfg : Config) : Config × MasterPlan :=
  let assetAddr := joinHostPort cfg.masterAddr.host (cfg.bindAddr.port + 1)
  let cfg := { cfg with corsAllowedOrigins :=
                 cfg.corsAllowedOrigins ++ [assetAddr, "localhost", "127.0.0.1"] }
  let tls : Bool := cfg.masterAddr.scheme == "https"
  let kubeCC : ClientConfig :=
    if startKube then { host := cfg.masterAddr.urlString, user := none }
    else { host := cfg.kubernetesAddr.urlString, user := none }
  let plan : MasterPlan :=
    if tls then
      { tls := true
        bindAddr := joinHostPort cfg.bindAddr.host cfg.bindAddr.port
        masterAddr := cfg.masterAddr.urlString
        assetAddr := assetAddr
        kubernetesAddr := cfg.kubernetesAddr.urlString
        corsAllowedOrigins := cfg.corsAllowedOrigins
        osClientConfig := { host := cfg.masterAddr.urlString, user := some "openshift-client" }
        deployerOSClientConfig := { host := cfg.masterAddr.urlString, user := some "openshift-deployer" }
        kubeClientConfig :=
          if startKube then { kubeCC with user := some "kube-client" } else kubeCC
        identities := bootstrapIdentities true startKube cfg.masterAddr.host }
    else
      { tls := false
        bindAddr := joinHostPort cfg.bindAddr.host cfg.bindAddr.port
        masterAddr := cfg.masterAddr.urlString
        assetAddr := assetAddr
        kubernetesAddr := cfg.kubernetesAddr.urlString
        corsAllowedOrigins := cfg.corsAllowedOrigins
        osClientConfig := { host := cfg.masterAddr.urlString, user := none }
        deployerOSClientConfig := { host := cfg.masterAddr.urlString, user := none }
        kubeClientConfig := kubeCC
        identities := bootstrapIdentities false startKube cfg.masterAddr.host }
  (cfg, plan)

/-- The master branch of `start` (lines 196-364): default the node list,
pass the readiness gate, then build the master plan; the launch events
themselves (including the embedded etcd when selected) are collected by
`start` via `masterEvents`. -/
def startMasterBranch (probe : Nat → ProbeResult) (startKube : Bool)
    (cfg : Config) : Except StartError (Config × MasterPlan) :=
  let cfg := defaultNodeListConfig cfg
  match getEtcdClient probe with
  | .error e => .error e
  | .ok _ => .ok (buildMasterPlan startKube cfg)

/-- The node branch of `start` (lines 366-396): pass the readiness gate
and build the node plan. -/
def startNodeBranch (probe : Nat → ProbeResult) (cfg : Config) :
    Except StartError NodePlan :=
  match getEtcdClient probe with
  | .error e => .error e
  | .ok _ =>
    .ok { bindHost := cfg.bindAddr.host
          nodeHost := cfg.hostname
          masterHost := cfg.masterAddr.urlString
          volumeDir := cfg.volumeDir }

/-- A probe standing for an etcd server that is already up. -/
def probeUp : Nat → ProbeResult := fun _ => .ok

/-- A probe standing for an etcd server that is up but empty: every
query answers "key not found". -/
def probeEmpty : Nat → ProbeResult := fun _ => .notFound

/-- A probe standing for an unreachable etcd server. -/
def probeDown : Nat → ProbeResult := fun _ => .transportError

/-- A default configuration in which the operator passed
`--etcd=10.0.0.9:4001`, so the store address is explicitly provided. -/
def cfgEtcdExplicit : Config :=
  { defaultConfig "node1.example.com" with
    etcdAddr := (defaultConfig "node1.example.com").etcdAddr.setHostPort "10.0.0.9" 4001 }

/-- A default configuration in which the operator passed
`--master=203.0.113.9:9443` (scheme absent, so the master flag's default
scheme applies) and nothing else: the spec's end-to-end scenario B. -/
def cfgScenarioB : Config :=
  { defaultConfig "node1.example.com" with
    masterAddr := (defaultConfig "node1.example.com").masterAddr.setHostPort "203.0.113.9" 9443 }

/-- A default configuration in which the operator passed
`--master=10.0.0.5:8443` and nothing else: the spec's end-to-end
scenario C (a node pointed at a remote master). -/
def cfgScenarioC : Config :=
  { defaultConfig "node1.example.com" with
    masterAddr := (defaultConfig "node1.example.com").masterAddr.setHostPort "10.0.0.5" 8443 }

/-- A default configuration in which the operator passed
`--listen=http://0.0.0.0:8080`, forcing the negotiated master scheme to
`http` (unencrypted transport). -/
def cfgHttpListen : Config :=
  { defaultConfig "node1.example.com" with
    bindAddr := (defaultConfig "node1.example.com").bindAddr.setURL "http" "0.0.0.0" 8080 }

/-- The configuration address negotiation produces from the plain
defaults on a host whose discovered local address is `10.0.0.5`: master
`https://10.0.0.5:8443`, etcd `http://10.0.0.5:4001`, both now marked
provided (the spec's end-to-end scenario A). -/
def cfgResolvedA : Config :=
  { defaultConfig "node1.example.com" with
    masterAddr := (defaultConfig "node1.example.com").masterAddr.setURL "https" "10.0.0.5" 8443
    etcdAddr := (defaultConfig "node1.example.com").etcdAddr.setHostPort "10.0.0.5" 4001 }

/-- A default configuration in which the operator supplied two CORS
origins and a two-entry node list that contains `"127.0.0.1"`. -/
def cfgCustom : Config :=
  { defaultConfig "node1.example.com" with
    corsAllowedOrigins := ["example.com", "*.corp.example"]
    nodeList := ["127.0.0.1", "node2.example.com"] }


/-- Assemble the `Outcome` record of a successful `start` run from the
final configuration, the four role flags, and the plans the selected
branches built. -/
def mkOutcome (cfg : Config) (startEtcd startMaster startNode startKube : Bool)
    (master : Option MasterPlan) (node : Option NodePlan) : Outcome :=
  { cfg := cfg
    startEtcd := startEtcd
    startMaster := startMaster
    startNode := startNode
    startKube := startKube
    master := master
    node := node
    events := (if startMaster then masterEvents startEtcd startKube else []) ++
              (if startNode then nodeEvents else []) }

/-- `start` from `start.go`, end to end: resolve the roles from the
positional arguments, default the master and etcd addresses (with
`localIP` standing for `util.DefaultLocalIP4`), default the Kubernetes
address to the master when `--kubernetes` was not given, then run the
master and node branches as selected, collecting the launch events in
source order. -/
def start (localIP : Option String) (probe : Nat → ProbeResult)
    (cfg : Config) (args : List String) : Except StartError Outcome :=
  match resolveRoles cfg args with
  | .error e => .error e
  | .ok (startEtcd, startMaster, startNode) =>
  match defaultMasterAddress localIP cfg with
  | .error e => .error e
  | .ok cfg =>
  let startKube := !cfg.kubernetesAddr.provided
  let cfg := if startKube then { cfg with kubernetesAddr := cfg.masterAddr } else cfg
  if startMaster then
    match startMasterBranch probe startKube cfg with
    | .error e => .error e
    | .ok (cfg, mplan) =>
      if startNode then
        match startNodeBranch probe cfg with
        | .error e => .error e
        | .ok nplan =>
          .ok (mkOutcome cfg startEtcd startMaster startNode startKube (some mplan) (some nplan))
      else
        .ok (mkOutcome cfg startEtcd startMaster startNode startKube (some mplan) none)
  else
    if startNode then
      match startNodeBranch probe cfg with
      | .error e => .error e
      | .ok nplan =>
        .ok (mkOutcome cfg startEtcd startMaster startNode startKube none (some nplan))
    else
      .ok (mkOutcome cfg startEtcd startMaster startNode startKube none none)

/-- A concrete `master`-role run on the plain defaults: discovery finds
`10.0.0.5`, etcd answers, transport negotiates to https. -/
def outMasterTLS : Outcome :=
  (start (some "10.0.0.5") probeUp (defaultConfig "node1.example.com") ["master"]).toOption.getD
    default

/-- The master plan built by the `outMasterTLS` run. -/
def mpMasterTLS : MasterPlan := outMasterTLS.master.getD default

/-- A concrete `master`-role run with `--listen=http://0.0.0.0:8080`, so
the negotiated master scheme is `http`. -/
def outMasterHTTP : Outcome :=
  (start (some "10.0.0.5") probeUp cfgHttpListen ["master"]).toOption.getD default

/-- The master plan built by the `outMasterHTTP` run. -/
def mpMasterHTTP : MasterPlan := outMasterHTTP.master.getD default

/-- A concrete `node`-role run pointed at the remote master
`10.0.0.5:8443` (the spec's scenario C). -/
def outNodeC : Outcome :=
  (start none probeUp cfgScenarioC ["node"]).toOption.getD default

/-- A concrete all-in-one run on the plain defaults. -/
def outAllInOne : Outcome :=
  (start (some "10.0.0.5") probeUp (defaultConfig "node1.example.com") []).toOption.getD default

/-- A concrete `master`-role run on `cfgCustom` (operator-supplied CORS
origins and node list). -/
def outMasterCustom : Outcome :=
  (start (some "10.0.0.5") probeUp cfgCustom ["master"]).toOption.getD default

/-- The master plan built by the `outMasterCustom` run. -/
def mpMasterCustom : MasterPlan := outMasterCustom.master.getD default

/-! ## Helper lemmas: the etcd readiness gate -/

theorem etcdGateAux_error_of_all (probe : Nat → ProbeResult) :
    ∀ fuel i, i ≤ 101 → (∀ k, k ≤ 101 → probe k = .transportError) →
      etcdGateAux probe fuel i = .error .storeUnreachable := by
  intro fuel
  induction fuel with
  | zero => intro i _ _; rfl
  | succ fuel ih =>
    intro i hi hall
    have hp := hall i hi
    by_cases h100 : i > 100
    · simp [etcdGateAux, hp, h100]
    · simp only [etcdGateAux, hp, if_neg h100]
      exact ih (i + 1) (by omega) hall

theorem etcdGateAux_all_of_error (probe : Nat → ProbeResult) :
    ∀ fuel i, 102 ≤ fuel + i →
      etcdGateAux probe fuel i = .error .storeUnreachable →
      ∀ k, i ≤ k → k ≤ 101 → probe k = .transportError := by
  intro fuel
  induction fuel with
  | zero => intro i hfi _ k hik hk; omega
  | succ fuel ih =>
    intro i hfi herr k hik hk
    cases hp : probe i with
    | ok => simp [etcdGateAux, hp] at herr
    | notFound => simp [etcdGateAux, hp] at herr
    | transportError =>
      by_cases h100 : i > 100
      · have hki : k = i := by omega
        rw [hki]; exact hp
      · simp only [etcdGateAux, hp, if_neg h100] at herr
        rcases Nat.eq_or_lt_of_le hik with rfl | hlt
        · exact hp
        · exact ih (i + 1) (by omega) herr k (by omega) hk

theorem etcdGateAux_ok_first (probe : Nat → ProbeResult) :
    ∀ fuel i j, 102 ≤ fuel + i → i ≤ j → j ≤ 101 →
      (∀ k, i ≤ k → k < j → probe k = .transportError) →
      probe j ≠ .transportError →
      etcdGateAux probe fuel i = .ok j := by
  intro fuel
  induction fuel with
  | zero => intro i j hfi hij hj _ _; omega
  | succ fuel ih =>
    intro i j hfi hij hj hbefore hjs
    rcases Nat.eq_or_lt_of_le hij with rfl | hlt
    · cases hp : probe i with
      | ok => simp [etcdGateAux, hp]
      | notFound => simp [etcdGateAux, hp]
      | transportError => exact absurd hp hjs
    · have hp : probe i = .transportError := hbefore i le_rfl hlt
      have h100 : ¬ i > 100 := by omega
      simp only [etcdGateAux, hp, if_neg h100]
      exact ih (i + 1) j (by omega) (by omega) hj
        (fun k hk1 hk2 => hbefore k (by omega) hk2) hjs

/-! ## Helper lemmas: what address defaulting leaves untouched -/

theorem defaultMasterAddress_preserves (ip : Option String) (cfg cfg1 : Config)
    (h : defaultMasterAddress ip cfg = .ok cfg1) :
    cfg1.kubernetesAddr = cfg.kubernetesAddr ∧ cfg1.bindAddr = cfg.bindAddr ∧
    cfg1.hostname = cfg.hostname ∧ cfg1.nodeList = cfg.nodeList ∧
    cfg1.corsAllowedOrigins = cfg.corsAllowedOrigins := by
  by_cases hm : cfg.masterAddr.provided = true
  · by_cases he : cfg.etcdAddr.provided = true
    · simp only [defaultMasterAddress, hm, he, Bool.not_true, Bool.false_eq_true,
        if_false, Except.ok.injEq] at h
      rw [← h]
      exact ⟨rfl, rfl, rfl, rfl, rfl⟩
    · simp only [Bool.not_eq_true] at he
      simp only [defaultMasterAddress, hm, he, Bool.not_true, Bool.not_false,
        Bool.false_eq_true, if_false, if_true, Except.ok.injEq] at h
      rw [← h]
      exact ⟨rfl, rfl, rfl, rfl, rfl⟩
  · simp only [Bool.not_eq_true] at hm
    cases ip with
    | none => simp [defaultMasterAddress, hm] at h
    | some addr =>
      by_cases he : cfg.etcdAddr.provided = true
      · simp only [defaultMasterAddress, hm, he, Bool.not_true, Bool.not_false,
          Bool.false_eq_true, if_false, if_true, Except.ok.injEq] at h
        rw [← h]
        exact ⟨rfl, rfl, rfl, rfl, rfl⟩
      · simp only [Bool.not_eq_true] at he
        simp only [defaultMasterAddress, hm, he, Bool.not_true, Bool.not_false,
          Bool.false_eq_true, if_false, if_true, Except.ok.injEq] at h
        rw [← h]
        exact ⟨rfl, rfl, rfl, rfl, rfl⟩

theorem defaultNodeListConfig_eq (c : Config) :
    defaultNodeListConfig c =
      { c with nodeList :=
          if c.nodeList = ["127.0.0.1"] then [c.hostname] else c.nodeList } := by
  unfold defaultNodeListConfig
  split
  · rename_i n heq
    by_cases hn : n = "127.0.0.1"
    · subst hn
      simp [heq]
    · have : c.nodeList ≠ ["127.0.0.1"] := by
        rw [heq]
        simp [hn]
      simp [hn, this]
  · rename_i hne
    have : c.nodeList ≠ ["127.0.0.1"] := fun hx => hne "127.0.0.1" hx
    simp [this]

/-! ## Helper lemmas: projections of the built master plan -/

theorem buildMasterPlan_fst (sk : Bool) (c : Config) :
    (buildMasterPlan sk c).1 =
      { c with corsAllowedOrigins := c.corsAllowedOrigins ++
          [joinHostPort c.masterAddr.host (c.bindAddr.port + 1), "localhost", "127.0.0.1"] } :=
  rfl

theorem buildMasterPlan_identities (sk : Bool) (c : Config) :
    (buildMasterPlan sk c).2.identities =
      bootstrapIdentities (c.masterAddr.scheme == "https") sk c.masterAddr.host := by
  unfold buildMasterPlan
  by_cases htls : c.masterAddr.scheme = "https"
  · simp [htls]
  · have hb : (c.masterAddr.scheme == "https") = false := beq_eq_false_iff_ne.mpr htls
    simp [htls, hb]

theorem buildMasterPlan_osClientConfig (sk : Bool) (c : Config) :
    (buildMasterPlan sk c).2.osClientConfig =
      (if c.masterAddr.scheme == "https"
       then { host := c.masterAddr.urlString, user := some "openshift-client" }
       else { host := c.masterAddr.urlString, user := none }) := by
  unfold buildMasterPlan
  by_cases htls : c.masterAddr.scheme = "https" <;> simp [htls]

theorem buildMasterPlan_deployerOSClientConfig (sk : Bool) (c : Config) :
    (buildMasterPlan sk c).2.deployerOSClientConfig =
      (if c.masterAddr.scheme == "https"
       then { host := c.masterAddr.urlString, user := some "openshift-deployer" }
       else { host := c.masterAddr.urlString, user := none }) := by
  unfold buildMasterPlan
  by_cases htls : c.masterAddr.scheme = "https" <;> simp [htls]

theorem buildMasterPlan_assetAddr (sk : Bool) (c : Config) :
    (buildMasterPlan sk c).2.assetAddr =
      joinHostPort c.masterAddr.host (c.bindAddr.port + 1) := by
  unfold buildMasterPlan
  by_cases htls : c.masterAddr.scheme = "https" <;> simp [htls]

theorem buildMasterPlan_cors (sk : Bool) (c : Config) :
    (buildMasterPlan sk c).2.corsAllowedOrigins =
      c.corsAllowedOrigins ++
        [joinHostPort c.masterAddr.host (c.bindAddr.port + 1), "localhost", "127.0.0.1"] := by
  unfold buildMasterPlan
  by_cases htls : c.masterAddr.scheme = "https" <;> simp [htls]

/-! ## Helper lemmas: inverting a successful `start` run -/

theorem start_ok_inv (ip : Option String) (probe : Nat → ProbeResult)
    (cfg : Config) (args : List String) (out : Outcome)
    (h : start ip probe cfg args = .ok out) :
    ∃ se sm sn cfg1,
      resolveRoles cfg args = .ok (se, sm, sn) ∧
      defaultMasterAddress ip cfg = .ok cfg1 ∧
      out.startEtcd = se ∧ out.startMaster = sm ∧ out.startNode = sn ∧
      out.startKube = !cfg1.kubernetesAddr.provided ∧
      out.events = (if sm then masterEvents se (!cfg1.kubernetesAddr.provided) else []) ++
                   (if sn then nodeEvents else []) ∧
      (sm = true →
        ∃ mp, out.master = some mp ∧
          (out.cfg, mp) =
            buildMasterPlan (!cfg1.kubernetesAddr.provided)
              (defaultNodeListConfig
                (if !cfg1.kubernetesAddr.provided
                 then { cfg1 with kubernetesAddr := cfg1.masterAddr } else cfg1))) ∧
      (sm = false →
        out.master = none ∧
        out.cfg = (if !cfg1.kubernetesAddr.provided
                   then { cfg1 with kubernetesAddr := cfg1.masterAddr } else cfg1)) := by
  unfold start at h
  cases hr : resolveRoles cfg args with
  | error e => rw [hr] at h; exact absurd h (by simp)
  | ok r =>
    obtain ⟨se, sm, sn⟩ := r
    rw [hr] at h
    cases hd : defaultMasterAddress ip cfg with
    | error e => rw [hd] at h; exact absurd h (by simp)
    | ok cfg1 =>
      rw [hd] at h
      dsimp only at h
      refine ⟨se, sm, sn, cfg1, rfl, rfl, ?_⟩
      cases sm with
      | true =>
        simp only [if_true] at h
        unfold startMasterBranch at h
        cases hg : getEtcdClient probe with
        | error e => rw [hg] at h; simp at h
        | ok k =>
          rw [hg] at h
          dsimp only at h
          cases sn with
          | true =>
            unfold startNodeBranch at h
            rw [hg] at h
            dsimp only at h
            injection h with h
            subst h
            simp [mkOutcome]
          | false =>
            simp only [if_neg (by simp : ¬ (false = true))] at h
            injection h with h
            subst h
            simp [mkOutcome]
      | false =>
        simp only [Bool.false_eq_true, if_false] at h
        cases sn with
        | true =>
          simp only [if_true] at h
          unfold startNodeBranch at h
          cases hg : getEtcdClient probe with
          | error e => rw [hg] at h; simp at h
          | ok k =>
            rw [hg] at h
            dsimp only at h
            injection h with h
            subst h
            simp [mkOutcome]
        | false =>
          simp only [Bool.false_eq_true, if_false] at h
          injection h with h
          subst h
          simp [mkOutcome]

/-! ## Claim theorems -/

/-- C3: the store-readiness gate probes the root key in a loop sleeping
50ms between failed attempts, succeeds at the first probe that answers
with no error or "key not found" (in particular immediately, when that is
the first probe), and returns `StoreUnreachable` if and only if every
probe up to the fixed attempt bound (iterations 0 through 101) answered
with a transport error. -/
theorem etcd_readiness_gate_spec (probe : Nat → ProbeResult) :
    etcdSleepIntervalMs = 50 ∧
    (∀ j, j ≤ 101 → (∀ k, k < j → probe k = .transportError) →
      probe j ≠ .transportError → getEtcdClient probe = .ok j) ∧
    (getEtcdClient probe = .error .storeUnreachable ↔
      ∀ k, k ≤ 101 → probe k = .transportError) := by
  refine ⟨rfl, ?_, ?_, ?_⟩
  · intro j hj hb hs
    exact etcdGateAux_ok_first probe 102 0 j (by omega) (Nat.zero_le _) hj
      (fun k _ hk => hb k hk) hs
  · intro h k hk
    exact etcdGateAux_all_of_error probe 102 0 (by omega) h k (Nat.zero_le _) hk
  · intro hall
    exact etcdGateAux_error_of_all probe 102 0 (by omega) hall

/-- Witness for C3: an always-empty store passes the gate on the very
first probe, and an unreachable store exhausts the bound. -/
theorem etcd_readiness_gate_spec_witness :
    getEtcdClient probeEmpty = .ok 0 ∧
    getEtcdClient probeDown = .error .storeUnreachable := by
  constructor
  · exact (etcd_readiness_gate_spec probeEmpty).2.1 0 (by omega)
      (fun k hk => absurd hk (Nat.not_lt_zero k)) (by simp [probeEmpty])
  · exact (etcd_readiness_gate_spec probeDown).2.2.mpr (fun k _ => rfl)

/-- C2: when the master address was not explicitly provided, address
defaulting takes the port and scheme from the explicit listen (bind)
address when the operator set one and from the master flag's defaults
otherwise, uses the discovered local address as the host, marks the
result provided, and fails with `AddressDiscoveryFailed` when no local
address can be discovered.  (A master address the operator never set
still carries its default port and scheme, which the two equation
hypotheses record.) -/
theorem master_address_defaulting_spec (cfg : Config) (host : String)
    (hm : cfg.masterAddr.provided = false)
    (hport : cfg.masterAddr.port = cfg.masterAddr.defaultPort)
    (hscheme : cfg.masterAddr.scheme = cfg.masterAddr.defaultScheme) :
    defaultMasterAddress none cfg = .error .addressDiscoveryFailed ∧
    ∃ cfg2, defaultMasterAddress (some host) cfg = .ok cfg2 ∧
      cfg2.masterAddr.provided = true ∧
      cfg2.masterAddr.host = host ∧
      cfg2.masterAddr.port =
        (if cfg.bindAddr.provided then cfg.bindAddr.port else cfg.masterAddr.defaultPort) ∧
      cfg2.masterAddr.scheme =
        (if cfg.bindAddr.provided then cfg.bindAddr.scheme else cfg.masterAddr.defaultScheme) := by
  constructor
  · simp [defaultMasterAddress, hm]
  · by_cases he : cfg.etcdAddr.provided = true
    · refine ⟨{ cfg with masterAddr := (cfg.masterAddr.setURL
          (if cfg.bindAddr.provided then cfg.bindAddr.scheme else cfg.masterAddr.scheme) host
          (if cfg.bindAddr.provided then cfg.bindAddr.port else cfg.masterAddr.port)) },
        ?_, ?_, ?_, ?_, ?_⟩
      · simp [defaultMasterAddress, hm, he]
      · simp [Addr.setURL]
      · simp [Addr.setURL]
      · simp [Addr.setURL, hport]
      · simp [Addr.setURL, hscheme]
    · simp only [Bool.not_eq_true] at he
      refine ⟨{ cfg with
          masterAddr := (cfg.masterAddr.setURL
            (if cfg.bindAddr.provided then cfg.bindAddr.scheme else cfg.masterAddr.scheme) host
            (if cfg.bindAddr.provided then cfg.bindAddr.port else cfg.masterAddr.port))
          etcdAddr := (cfg.etcdAddr.setHostPort host cfg.etcdAddr.defaultPort) },
        ?_, ?_, ?_, ?_, ?_⟩
      · simp [defaultMasterAddress, hm, he]
      · simp [Addr.setURL]
      · simp [Addr.setURL]
      · simp [Addr.setURL, hport]
      · simp [Addr.setURL, hscheme]

/-- Witness for C2: on the untouched default configuration, discovery
failure aborts with `AddressDiscoveryFailed`, and a discovered address
`10.0.0.5` becomes the provided master host with the master flag's
default port and scheme. -/
theorem master_address_defaulting_spec_witness :
    defaultMasterAddress none (defaultConfig "node1.example.com") =
      .error .addressDiscoveryFailed ∧
    ∃ cfg2, defaultMasterAddress (some "10.0.0.5") (defaultConfig "node1.example.com") =
        .ok cfg2 ∧
      cfg2.masterAddr.provided = true ∧
      cfg2.masterAddr.host = "10.0.0.5" ∧
      cfg2.masterAddr.port =
        (if (defaultConfig "node1.example.com").bindAddr.provided
         then (defaultConfig "node1.example.com").bindAddr.port
         else (defaultConfig "node1.example.com").masterAddr.defaultPort) ∧
      cfg2.masterAddr.scheme =
        (if (defaultConfig "node1.example.com").bindAddr.provided
         then (defaultConfig "node1.example.com").bindAddr.scheme
         else (defaultConfig "node1.example.com").masterAddr.defaultScheme) :=
  master_address_defaulting_spec (defaultConfig "node1.example.com") "10.0.0.5" rfl rfl rfl

/-- C4: when the store (etcd) address was not explicitly provided, it is
derived with the store's default port and default scheme from the master
host: from the explicitly provided master address when there is one
(leaving the master address untouched), and otherwise from the same
discovered local address the master address itself is derived from. -/
theorem etcd_address_defaulting_spec (cfg : Config) (ip : Option String) (host : String)
    (he : cfg.etcdAddr.provided = false) :
    (cfg.masterAddr.provided = true →
      ∃ cfg2, defaultMasterAddress ip cfg = .ok cfg2 ∧
        cfg2.masterAddr = cfg.masterAddr ∧
        cfg2.etcdAddr.host = cfg.masterAddr.host ∧
        cfg2.etcdAddr.port = cfg.etcdAddr.defaultPort ∧
        cfg2.etcdAddr.scheme = cfg.etcdAddr.defaultScheme) ∧
    (cfg.masterAddr.provided = false →
      ∃ cfg2, defaultMasterAddress (some host) cfg = .ok cfg2 ∧
        cfg2.masterAddr.host = host ∧
        cfg2.etcdAddr.host = host ∧
        cfg2.etcdAddr.port = cfg.etcdAddr.defaultPort ∧
        cfg2.etcdAddr.scheme = cfg.etcdAddr.defaultScheme) := by
  constructor
  · intro hm
    refine ⟨{ cfg with
        etcdAddr := (cfg.etcdAddr.setHostPort cfg.masterAddr.host cfg.etcdAddr.defaultPort) },
      ?_, ?_, ?_, ?_, ?_⟩
    · simp [defaultMasterAddress, hm, he]
    · rfl
    · simp [Addr.setHostPort]
    · simp [Addr.setHostPort]
    · simp [Addr.setHostPort]
  · intro hm
    refine ⟨{ cfg with
        masterAddr := (cfg.masterAddr.setURL
          (if cfg.bindAddr.provided then cfg.bindAddr.scheme else cfg.masterAddr.scheme) host
          (if cfg.bindAddr.provided then cfg.bindAddr.port else cfg.masterAddr.port))
        etcdAddr := (cfg.etcdAddr.setHostPort host cfg.etcdAddr.defaultPort) },
      ?_, ?_, ?_, ?_, ?_⟩
    · simp [defaultMasterAddress, hm, he]
    · simp [Addr.setURL]
    · simp [Addr.setHostPort]
    · simp [Addr.setHostPort]
    · simp [Addr.setHostPort]

/-- Witness for C4: with `--master=203.0.113.9:9443` and no `--etcd`
(scenario B), the derived store address is `http://203.0.113.9:4001`;
with neither provided, discovery of `10.0.0.5` puts the same host into
both addresses. -/
theorem etcd_address_defaulting_spec_witness :
    (∃ cfg2, defaultMasterAddress none cfgScenarioB = .ok cfg2 ∧
      cfg2.masterAddr = cfgScenarioB.masterAddr ∧
      cfg2.etcdAddr.host = cfgScenarioB.masterAddr.host ∧
      cfg2.etcdAddr.port = cfgScenarioB.etcdAddr.defaultPort ∧
      cfg2.etcdAddr.scheme = cfgScenarioB.etcdAddr.defaultScheme) ∧
    (∃ cfg2, defaultMasterAddress (some "10.0.0.5")
        (defaultConfig "node1.example.com") = .ok cfg2 ∧
      cfg2.masterAddr.host = "10.0.0.5" ∧
      cfg2.etcdAddr.host = "10.0.0.5" ∧
      cfg2.etcdAddr.port = (defaultConfig "node1.example.com").etcdAddr.defaultPort ∧
      cfg2.etcdAddr.scheme = (defaultConfig "node1.example.com").etcdAddr.defaultScheme) ∧
    (defaultMasterAddress none cfgScenarioB).toOption.map (fun c => c.etcdAddr.urlString) =
      some "http://203.0.113.9:4001" := by
  refine ⟨?_, ?_, ?_⟩
  · exact (etcd_address_defaulting_spec cfgScenarioB none "" rfl).1 rfl
  · exact (etcd_address_defaulting_spec (defaultConfig "node1.example.com")
      none "10.0.0.5" rfl).2 rfl
  · decide

/-- C8: address negotiation is idempotent: a successful run marks both
the master and store addresses provided, so re-running it on its own
output (with any discovery result, even failure) changes nothing. -/
theorem address_negotiation_idempotent (ip ip2 : Option String) (cfg cfg2 : Config)
    (h : defaultMasterAddress ip cfg = .ok cfg2) :
    defaultMasterAddress ip2 cfg2 = .ok cfg2 := by
  have h2 : cfg2.masterAddr.provided = true ∧ cfg2.etcdAddr.provided = true := by
    by_cases hm : cfg.masterAddr.provided = true
    · by_cases he : cfg.etcdAddr.provided = true
      · simp only [defaultMasterAddress, hm, he, Bool.not_true, Bool.false_eq_true,
          if_false, Except.ok.injEq] at h
        rw [← h]
        exact ⟨hm, he⟩
      · simp only [Bool.not_eq_true] at he
        simp only [defaultMasterAddress, hm, he, Bool.not_true, Bool.not_false,
          Bool.false_eq_true, if_false, if_true, Except.ok.injEq] at h
        rw [← h]
        simp [Addr.setHostPort, hm]
    · simp only [Bool.not_eq_true] at hm
      cases ip with
      | none => simp [defaultMasterAddress, hm] at h
      | some addr =>
        by_cases he : cfg.etcdAddr.provided = true
        · simp only [defaultMasterAddress, hm, he, Bool.not_true, Bool.not_false,
            Bool.false_eq_true, if_false, if_true, Except.ok.injEq] at h
          rw [← h]
          simp [Addr.setURL, he]
        · simp only [Bool.not_eq_true] at he
          simp only [defaultMasterAddress, hm, he, Bool.not_true, Bool.not_false,
            Bool.false_eq_true, if_false, if_true, Except.ok.injEq] at h
          rw [← h]
          simp [Addr.setURL, Addr.setHostPort]
  simp [defaultMasterAddress, h2.1, h2.2]

/-- Witness for C8: re-running address negotiation on scenario A's
resolved output — even with discovery now failing — returns it
unchanged. -/
theorem address_negotiation_idempotent_witness :
    defaultMasterAddress none cfgResolvedA = .ok cfgResolvedA :=
  address_negotiation_idempotent (some "10.0.0.5") none
    (defaultConfig "node1.example.com") cfgResolvedA rfl

/-- Counterexample to C6 as stated: with zero positional arguments but an
explicitly provided store address (`--etcd=10.0.0.9:4001`), role
resolution yields `startEtcd = false` — the store is NOT selected, so
"AllInOne (store + master + node all selected)" fails. -/
theorem role_resolution_counterexample :
    resolveRoles cfgEtcdExplicit [] = .ok (false, true, true) := by
  rfl

/-- C6 (amended): zero positional tokens resolves to all-in-one with
master and node selected and the store selected iff the store address
was not explicitly provided; one token resolves to master-only for
`"master"` (store again selected iff the store address was not
explicitly provided) and node-only for `"node"`; any other single token
and every list of two or more tokens fail with `InvalidArguments`. -/
theorem role_resolution_spec (cfg : Config) (t : String) (l : List String)
    (ht1 : t ≠ "master") (ht2 : t ≠ "node") (hl : 2 ≤ l.length) :
    resolveRoles cfg [] = .ok (!cfg.etcdAddr.provided, true, true) ∧
    resolveRoles cfg ["master"] = .ok (!cfg.etcdAddr.provided, true, false) ∧
    resolveRoles cfg ["node"] = .ok (false, false, true) ∧
    resolveRoles cfg [t] = .error .invalidArguments ∧
    resolveRoles cfg l = .error .invalidArguments := by
  refine ⟨rfl, rfl, rfl, ?_, ?_⟩
  · simp [resolveRoles, ht1, ht2]
  · have hgt : l.length > 1 := hl
    simp [resolveRoles, hgt]

/-- Witness for C6 (amended): on the default configuration, the empty
argument list selects all three roles, `"master"`/`"node"` select their
roles, the unrecognized token `"proxy"` and the two-token list
`["master", "node"]` fail with `InvalidArguments`. -/
theorem role_resolution_spec_witness :
    resolveRoles (defaultConfig "node1.example.com") [] = .ok (true, true, true) ∧
    resolveRoles (defaultConfig "node1.example.com") ["master"] = .ok (true, true, false) ∧
    resolveRoles (defaultConfig "node1.example.com") ["node"] = .ok (false, false, true) ∧
    resolveRoles (defaultConfig "node1.example.com") ["proxy"] = .error .invalidArguments ∧
    resolveRoles (defaultConfig "node1.example.com") ["master", "node"] =
      .error .invalidArguments :=
  role_resolution_spec (defaultConfig "node1.example.com") "proxy" ["master", "node"]
    (by decide) (by decide) (by decide)

/-- C1: in every successful run that builds a master plan, if the
resolved master scheme is `https` the trust bootstrap issues exactly the
master server certificate plus the `openshift-client`,
`openshift-deployer` and `admin` client identities, together with
`kube-client` if and only if no explicit `--kubernetes` address was
provided; if the scheme is not `https`, no identity is issued and the
OpenShift clients share one unauthenticated configuration pointed at the
master address. -/
theorem trust_bootstrap_spec (ip : Option String) (probe : Nat → ProbeResult)
    (cfg : Config) (args : List String) (out : Outcome) (mp : MasterPlan)
    (h : start ip probe cfg args = .ok out)
    (hm : out.master = some mp) :
    (out.cfg.masterAddr.scheme = "https" →
      mp.identities =
        [.server "master" [out.cfg.masterAddr.host, "localhost", "127.0.0.1", "172.17.42.1"],
         .client "openshift-client", .client "openshift-deployer", .client "admin"] ++
        (if cfg.kubernetesAddr.provided then [] else [.client "kube-client"]) ∧
      out.startKube = !cfg.kubernetesAddr.provided) ∧
    (¬ out.cfg.masterAddr.scheme = "https" →
      mp.identities = [] ∧
      mp.osClientConfig = mp.deployerOSClientConfig ∧
      mp.osClientConfig.user = none ∧
      mp.osClientConfig.host = out.cfg.masterAddr.urlString) := by
  obtain ⟨se, sm, sn, cfg1, hr, hd, hse, hsm, hsn, hsk, hev, hmt, hmf⟩ :=
    start_ok_inv ip probe cfg args out h
  have hpres := defaultMasterAddress_preserves ip cfg cfg1 hd
  cases sm with
  | false =>
    rw [(hmf rfl).1] at hm
    exact absurd hm (by simp)
  | true =>
    obtain ⟨mp', hmp', hbuild⟩ := hmt rfl
    rw [hm] at hmp'
    injection hmp' with hmp'
    subst hmp'
    have hcfg : out.cfg =
        (buildMasterPlan (!cfg1.kubernetesAddr.provided)
          (defaultNodeListConfig
            (if !cfg1.kubernetesAddr.provided
             then { cfg1 with kubernetesAddr := cfg1.masterAddr } else cfg1))).1 :=
      congrArg Prod.fst hbuild
    have hmp2 : mp =
        (buildMasterPlan (!cfg1.kubernetesAddr.provided)
          (defaultNodeListConfig
            (if !cfg1.kubernetesAddr.provided
             then { cfg1 with kubernetesAddr := cfg1.masterAddr } else cfg1))).2 :=
      congrArg Prod.snd hbuild
    have hcN : (defaultNodeListConfig
        (if !cfg1.kubernetesAddr.provided
         then { cfg1 with kubernetesAddr := cfg1.masterAddr } else cfg1)).masterAddr =
        cfg1.masterAddr := by
      rw [defaultNodeListConfig_eq]
      cases hkp : cfg1.kubernetesAddr.provided <;> simp
    have hout : out.cfg.masterAddr = cfg1.masterAddr := by
      rw [hcfg, buildMasterPlan_fst]
      exact hcN
    constructor
    · intro hscheme
      rw [hout] at hscheme
      have hb : ((defaultNodeListConfig
          (if !cfg1.kubernetesAddr.provided
           then { cfg1 with kubernetesAddr := cfg1.masterAddr } else cfg1)).masterAddr.scheme
          == "https") = true := by
        rw [hcN, hscheme]
        rfl
      constructor
      · rw [hmp2, buildMasterPlan_identities, hb, hout, hcN]
        rw [hpres.1] at hsk ⊢
        cases hkp : cfg.kubernetesAddr.provided <;>
          simp [bootstrapIdentities, hkp]
      · rw [hsk, hpres.1]
    · intro hscheme
      rw [hout] at hscheme
      have hb : ((defaultNodeListConfig
          (if !cfg1.kubernetesAddr.provided
           then { cfg1 with kubernetesAddr := cfg1.masterAddr } else cfg1)).masterAddr.scheme
          == "https") = false := by
        rw [hcN]
        exact beq_eq_false_iff_ne.mpr hscheme
      refine ⟨?_, ?_, ?_, ?_⟩
      · rw [hmp2, buildMasterPlan_identities, hb]
        simp [bootstrapIdentities]
      · rw [hmp2, buildMasterPlan_osClientConfig, buildMasterPlan_deployerOSClientConfig, hb]
        simp
      · rw [hmp2, buildMasterPlan_osClientConfig, hb]
        simp
      · rw [hmp2, buildMasterPlan_osClientConfig, hb, hout]
        simp only [Bool.false_eq_true, if_false]
        exact congrArg Addr.urlString hcN

/-- Witness for C1: the default `master` run (https, embedded
Kubernetes) issues the server certificate and all four client
identities, while the `--listen=http://...` run issues nothing and
shares one unauthenticated client configuration. -/
theorem trust_bootstrap_spec_witness :
    mpMasterTLS.identities =
      [.server "master" ["10.0.0.5", "localhost", "127.0.0.1", "172.17.42.1"],
       .client "openshift-client", .client "openshift-deployer", .client "admin",
       .client "kube-client"] ∧
    outMasterTLS.startKube = true ∧
    mpMasterHTTP.identities = [] ∧
    mpMasterHTTP.osClientConfig = mpMasterHTTP.deployerOSClientConfig ∧
    mpMasterHTTP.osClientConfig.user = none := by
  have h1 := trust_bootstrap_spec (some "10.0.0.5") probeUp
    (defaultConfig "node1.example.com") ["master"] outMasterTLS mpMasterTLS rfl rfl
  have h2 := trust_bootstrap_spec (some "10.0.0.5") probeUp
    cfgHttpListen ["master"] outMasterHTTP mpMasterHTTP rfl rfl
  have hA := h1.1 rfl
  have hB := h2.2 (by decide)
  refine ⟨?_, ?_, hB.1, hB.2.1, hB.2.2.1⟩
  · rw [hA.1]
    rfl
  · rw [hA.2]
    rfl

/-- Counterexample to C5 as stated: in the concrete node-only run of
scenario C the startup does invoke the store-readiness gate locally
(the gate event is in the launch sequence), and when the remote store is
unreachable that locally-run gate aborts the node startup with
`StoreUnreachable` — the claim says no store-readiness gate is invoked
locally. -/
theorem node_gate_counterexample :
    start none probeUp cfgScenarioC ["node"] = .ok outNodeC ∧
    outNodeC.startMaster = false ∧
    outNodeC.startNode = true ∧
    outNodeC.events.contains Event.etcdGate = true ∧
    start none probeDown cfgScenarioC ["node"] = .error .storeUnreachable := by
  exact ⟨rfl, rfl, rfl, rfl, rfl⟩

/-- C5 (amended): a node-only startup never embeds the store locally
(`startEtcd` is false and no embedded-store launch event occurs), builds
no master plan, and its launch sequence is exactly the node sequence —
which does invoke the store-readiness gate locally against the resolved
store address. -/
theorem node_only_plan_spec (ip : Option String) (probe : Nat → ProbeResult)
    (cfg : Config) (out : Outcome)
    (h : start ip probe cfg ["node"] = .ok out) :
    out.startEtcd = false ∧ out.startMaster = false ∧ out.startNode = true ∧
    out.master = none ∧
    out.events = nodeEvents ∧
    out.events.contains Event.runEtcd = false ∧
    out.events.contains Event.etcdGate = true := by
  obtain ⟨se, sm, sn, cfg1, hr, hd, hse, hsm, hsn, hsk, hev, hmt, hmf⟩ :=
    start_ok_inv ip probe cfg ["node"] out h
  have hroles : resolveRoles cfg ["node"] = .ok (false, false, true) := rfl
  rw [hroles] at hr
  injection hr with hr
  obtain ⟨h1, h2, h3⟩ : se = false ∧ sm = false ∧ sn = true := by
    have := Prod.mk.injEq .. ▸ hr
    refine ⟨?_, ?_, ?_⟩ <;> simp_all
  subst h1; subst h2; subst h3
  have hmaster := hmf rfl
  refine ⟨hse, hsm, hsn, hmaster.1, ?_, ?_, ?_⟩ <;>
    · rw [hev]
      simp [nodeEvents]

/-- Witness for C5 (amended): the scenario-C node run has exactly the
node launch sequence, no embedded store, and a locally invoked gate. -/
theorem node_only_plan_spec_witness :
    outNodeC.startEtcd = false ∧ outNodeC.startMaster = false ∧
    outNodeC.startNode = true ∧ outNodeC.master = none ∧
    outNodeC.events = nodeEvents ∧
    outNodeC.events.contains Event.runEtcd = false ∧
    outNodeC.events.contains Event.etcdGate = true :=
  node_only_plan_spec none probeUp cfgScenarioC outNodeC rfl

/-- C7: in every successful run, the master-side launch sequence puts
the API listener before the embedded workload-orchestration control
loops (present exactly when embedded locally), those before event
recording, recording before the asset listener, and the asset listener
before each of the six long-running controllers — so every controller
starts strictly after the API listener; the node-side sequence ensures
the working directories and the container-runtime handle, then starts
the proxy, and starts the workload agent only after the proxy. -/
theorem startup_order_spec (ip : Option String) (probe : Nat → ProbeResult)
    (cfg : Config) (args : List String) (out : Outcome)
    (h : start ip probe cfg args = .ok out) :
    (out.startMaster = true →
      ((out.startKube = true →
          out.events.indexOf .runAPI < out.events.indexOf .runScheduler ∧
          out.events.indexOf .runScheduler < out.events.indexOf .startRecording ∧
          out.events.indexOf .runReplicationController < out.events.indexOf .startRecording ∧
          out.events.indexOf .runEndpointController < out.events.indexOf .startRecording ∧
          out.events.indexOf .runMinionController < out.events.indexOf .startRecording) ∧
        (out.startKube = false → out.events.contains .runScheduler = false)) ∧
      out.events.indexOf .runAPI < out.events.indexOf .startRecording ∧
      out.events.indexOf .startRecording < out.events.indexOf .runAssetServer ∧
      out.events.indexOf .runAssetServer < out.events.indexOf .runBuildController ∧
      out.events.indexOf .runAssetServer < out.events.indexOf .runBuildImageChangeTriggerController ∧
      out.events.indexOf .runAssetServer < out.events.indexOf .runDeploymentController ∧
      out.events.indexOf .runAssetServer < out.events.indexOf .runDeploymentConfigController ∧
      out.events.indexOf .runAssetServer < out.events.indexOf .runDeploymentConfigChangeController ∧
      out.events.indexOf .runAssetServer < out.events.indexOf .runDeploymentImageChangeTriggerController ∧
      out.events.indexOf .runAPI < out.events.indexOf .runBuildController ∧
      out.events.indexOf .runAPI < out.events.indexOf .runBuildImageChangeTriggerController ∧
      out.events.indexOf .runAPI < out.events.indexOf .runDeploymentController ∧
      out.events.indexOf .runAPI < out.events.indexOf .runDeploymentConfigController ∧
      out.events.indexOf .runAPI < out.events.indexOf .runDeploymentConfigChangeController ∧
      out.events.indexOf .runAPI < out.events.indexOf .runDeploymentImageChangeTriggerController) ∧
    (out.startNode = true →
      out.events.indexOf .ensureVolumeDir < out.events.indexOf .ensureDocker ∧
      out.events.indexOf .ensureDocker < out.events.indexOf .runProxy ∧
      out.events.indexOf .runProxy < out.events.indexOf .runKubelet) := by
  obtain ⟨se, sm, sn, cfg1, hr, hd, hse, hsm, hsn, hsk, hev, hmt, hmf⟩ :=
    start_ok_inv ip probe cfg args out h
  rw [hsm, hsn, hsk, hev]
  generalize (!cfg1.kubernetesAddr.provided) = sk
  cases se <;> cases sm <;> cases sn <;> cases sk <;> decide

/-- Witness for C7: in the concrete all-in-one run, the API listener
precedes recording, asset serving and the controllers, and the proxy
precedes the kubelet. -/
theorem startup_order_spec_witness :
    outAllInOne.events.indexOf .runAPI < outAllInOne.events.indexOf .startRecording ∧
    outAllInOne.events.indexOf .runAssetServer <
      outAllInOne.events.indexOf .runBuildController ∧
    outAllInOne.events.indexOf .runProxy < outAllInOne.events.indexOf .runKubelet := by
  have h := startup_order_spec (some "10.0.0.5") probeUp
    (defaultConfig "node1.example.com") [] outAllInOne rfl
  exact ⟨(h.1 rfl).2.1, (h.1 rfl).2.2.2.1, (h.2 rfl).2.2⟩

/-- C9: in every successful run that builds a master plan, the CORS list
handed to the API listener is exactly the operator's list with the asset
listener's address, `"localhost"` and `"127.0.0.1"` appended: the three
entries are always present and no operator-supplied entry is removed. -/
theorem cors_allow_list_spec (ip : Option String) (probe : Nat → ProbeResult)
    (cfg : Config) (args : List String) (out : Outcome) (mp : MasterPlan)
    (h : start ip probe cfg args = .ok out)
    (hm : out.master = some mp) :
    mp.corsAllowedOrigins =
      cfg.corsAllowedOrigins ++ [mp.assetAddr, "localhost", "127.0.0.1"] ∧
    mp.assetAddr ∈ mp.corsAllowedOrigins ∧
    "localhost" ∈ mp.corsAllowedOrigins ∧
    "127.0.0.1" ∈ mp.corsAllowedOrigins ∧
    ∀ x ∈ cfg.corsAllowedOrigins, x ∈ mp.corsAllowedOrigins := by
  obtain ⟨se, sm, sn, cfg1, hr, hd, hse, hsm, hsn, hsk, hev, hmt, hmf⟩ :=
    start_ok_inv ip probe cfg args out h
  have hpres := defaultMasterAddress_preserves ip cfg cfg1 hd
  cases sm with
  | false =>
    rw [(hmf rfl).1] at hm
    exact absurd hm (by simp)
  | true =>
    obtain ⟨mp', hmp', hbuild⟩ := hmt rfl
    rw [hm] at hmp'
    injection hmp' with hmp'
    subst hmp'
    have hmp2 : mp =
        (buildMasterPlan (!cfg1.kubernetesAddr.provided)
          (defaultNodeListConfig
            (if !cfg1.kubernetesAddr.provided
             then { cfg1 with kubernetesAddr := cfg1.masterAddr } else cfg1))).2 :=
      congrArg Prod.snd hbuild
    have hcors : (defaultNodeListConfig
        (if !cfg1.kubernetesAddr.provided
         then { cfg1 with kubernetesAddr := cfg1.masterAddr } else cfg1)).corsAllowedOrigins =
        cfg.corsAllowedOrigins := by
      rw [defaultNodeListConfig_eq]
      cases hkp : cfg1.kubernetesAddr.provided <;> simp [hpres.2.2.2.2]
    have hmain : mp.corsAllowedOrigins =
        cfg.corsAllowedOrigins ++ [mp.assetAddr, "localhost", "127.0.0.1"] := by
      rw [hmp2, buildMasterPlan_cors, buildMasterPlan_assetAddr, hcors]
    refine ⟨hmain, ?_, ?_, ?_, ?_⟩
    · rw [hmain]; simp
    · rw [hmain]; simp
    · rw [hmain]; simp
    · intro x hx
      rw [hmain]
      exact List.mem_append_left _ hx

/-- Witness for C9: in the run on `cfgCustom` the operator's two origins
survive in order and the asset address (`10.0.0.5:8444`), `localhost`
and `127.0.0.1` are appended. -/
theorem cors_allow_list_spec_witness :
    mpMasterCustom.corsAllowedOrigins =
      ["example.com", "*.corp.example"] ++
        [mpMasterCustom.assetAddr, "localhost", "127.0.0.1"] ∧
    mpMasterCustom.assetAddr = "10.0.0.5:8444" := by
  have h := cors_allow_list_spec (some "10.0.0.5") probeUp cfgCustom ["master"]
    outMasterCustom mpMasterCustom rfl rfl
  exact ⟨h.1, rfl⟩

/-- C10: whenever a master role starts, a node list that is exactly the
one-element default `["127.0.0.1"]` is replaced by the configured
hostname before use, and every other node list is used verbatim. -/
theorem node_list_default_spec (ip : Option String) (probe : Nat → ProbeResult)
    (cfg : Config) (args : List String) (out : Outcome)
    (h : start ip probe cfg args = .ok out)
    (hm : out.startMaster = true) :
    (cfg.nodeList = ["127.0.0.1"] → out.cfg.nodeList = [cfg.hostname]) ∧
    (cfg.nodeList ≠ ["127.0.0.1"] → out.cfg.nodeList = cfg.nodeList) := by
  obtain ⟨se, sm, sn, cfg1, hr, hd, hse, hsm, hsn, hsk, hev, hmt, hmf⟩ :=
    start_ok_inv ip probe cfg args out h
  have hpres := defaultMasterAddress_preserves ip cfg cfg1 hd
  rw [hm] at hsm
  cases sm with
  | false => exact absurd hsm (by simp)
  | true =>
    obtain ⟨mp', hmp', hbuild⟩ := hmt rfl
    have hcfg : out.cfg =
        (buildMasterPlan (!cfg1.kubernetesAddr.provided)
          (defaultNodeListConfig
            (if !cfg1.kubernetesAddr.provided
             then { cfg1 with kubernetesAddr := cfg1.masterAddr } else cfg1))).1 :=
      congrArg Prod.fst hbuild
    have hnl : out.cfg.nodeList =
        (if cfg.nodeList = ["127.0.0.1"] then [cfg.hostname] else cfg.nodeList) := by
      rw [hcfg, buildMasterPlan_fst]
      rw [defaultNodeListConfig_eq]
      cases hkp : cfg1.kubernetesAddr.provided <;>
        simp [hpres.2.2.1, hpres.2.2.2.1]
    constructor
    · intro hx
      rw [hnl, if_pos hx]
    · intro hx
      rw [hnl, if_neg hx]

/-- Witness for C10: the default run replaces `["127.0.0.1"]` with the
hostname `node1.example.com`, while `cfgCustom`'s two-element list
(which contains `"127.0.0.1"`) is used verbatim. -/
theorem node_list_default_spec_witness :
    outMasterTLS.cfg.nodeList = ["node1.example.com"] ∧
    outMasterCustom.cfg.nodeList = ["127.0.0.1", "node2.example.com"] := by
  have h1 := node_list_default_spec (some "10.0.0.5") probeUp
    (defaultConfig "node1.example.com") ["master"] outMasterTLS rfl rfl
  have h2 := node_list_default_spec (some "10.0.0.5") probeUp
    cfgCustom ["master"] outMasterCustom rfl rfl
  exact ⟨h1.1 rfl, h2.2 (by decide)⟩

end Origin
